import Mathlib

/-!
Verification of the PocketSmith client library against its design
specification.

The repository is a thin client for the PocketSmith REST API plus a CLI
front end.  The request-marshalling code lives in
`src/pocketsmith/api.py` and is embedded here directly.  The transport
(`client.py`), credential lookup (`auth.py`) and CLI layer (`cli.py`)
are exercised by the repository's test suite but their sources are not
in the tree; those parts are modelled from the specification, and each
such definition is marked `Modelled from the spec:` in its doc comment.

Conventions of the embedding:
* A Python `dict` built by repeated `if x is not None: data[k] = x`
  with pairwise-distinct literal keys is embedded as an association
  list in insertion order (`List (String × _)`).
* Python `Optional[T] = None` keyword arguments are embedded as
  `Option` arguments; the caller passing `None` is `none`.
* Python `float` amounts are opaque to the marshalling code (they are
  only stored in the payload, never computed with), so they are
  embedded as `Int`.
* `params=params or None` passes `None` instead of an empty dict; both
  mean "no query string", so the embedding keeps the (possibly empty)
  association list.
-/

namespace PocketSmith

/-- JSON scalar/array values that the marshalling code places into a
request body. -/
inductive JValue where
  | null
  | bool (b : Bool)
  | int (n : Int)
  | str (s : String)
  | strList (l : List String)
deriving DecidableEq, Repr

/-- A JSON object, as an association list of fields in insertion
order. -/
abbrev JObject := List (String × JValue)

/-- A query-string parameter value: the `api.py` builders store either
strings or integers in the params dict. -/
inductive QValue where
  | str (s : String)
  | int (n : Int)
deriving DecidableEq, Repr

/-- How the transport renders a query parameter value into the query
string: integers become their decimal digits. -/
def QValue.render : QValue → String
  | .str s => s
  | .int n => toString n

/-- An HTTP request description: method, path, query parameters, JSON
body. -/
structure Request where
  method : String
  path : String
  params : List (String × QValue)
  body : JObject
deriving DecidableEq, Repr

/-- One optional field of a body or params dict: mirrors the Python
pattern `if x is not None: data[k] = f(x)`. -/
def optField (k : String) (f : α → β) (o : Option α) : List (String × β) :=
  match o with
  | none => []
  | some v => [(k, f v)]

/-- Mirrors the Python expression `1 if b else 0` used for boolean
query flags. -/
def bool_flag (b : Bool) : Int := if b then 1 else 0

/-- Body built by `PocketSmithAPI.update_transaction`
(`api.py` lines 84–106): each optional keyword argument is added to the
dict only when it is not `None`. -/
def update_transaction_body (memo cheque_number payee : Option String)
    (amount : Option Int) (date : Option String) (is_transfer : Option Bool)
    (category_id : Option Int) (note : Option String)
    (needs_review : Option Bool) (labels : Option (List String)) : JObject :=
  optField "memo" JValue.str memo ++
  optField "cheque_number" JValue.str cheque_number ++
  optField "payee" JValue.str payee ++
  optField "amount" JValue.int amount ++
  optField "date" JValue.str date ++
  optField "is_transfer" JValue.bool is_transfer ++
  optField "category_id" JValue.int category_id ++
  optField "note" JValue.str note ++
  optField "needs_review" JValue.bool needs_review ++
  optField "labels" JValue.strList labels

/-- `PocketSmithAPI.update_transaction` (`api.py` lines 51–106):
`PUT /transactions/{id}` with the optional-field body. -/
def update_transaction (transaction_id : Int) (memo cheque_number payee : Option String)
    (amount : Option Int) (date : Option String) (is_transfer : Option Bool)
    (category_id : Option Int) (note : Option String)
    (needs_review : Option Bool) (labels : Option (List String)) : Request :=
  { method := "PUT"
    path := "/transactions/" ++ toString transaction_id
    params := []
    body := update_transaction_body memo cheque_number payee amount date
      is_transfer category_id note needs_review labels }

/-- Query parameters built identically by all four transaction list
endpoints (`api.py` lines 145–163, 194–212, 243–261, 292–310; the four
blocks are textually identical): boolean filters are stored as the
integer `1 if b else 0`, everything else is passed through, and unset
arguments are omitted. -/
def list_transactions_params (start_date end_date updated_since : Option String)
    (uncategorised : Option Bool) (type : Option String)
    (needs_review : Option Bool) (search : Option String)
    (page : Option Int) : List (String × QValue) :=
  optField "start_date" QValue.str start_date ++
  optField "end_date" QValue.str end_date ++
  optField "updated_since" QValue.str updated_since ++
  optField "uncategorised" (fun b => QValue.int (bool_flag b)) uncategorised ++
  optField "type" QValue.str type ++
  optField "needs_review" (fun b => QValue.int (bool_flag b)) needs_review ++
  optField "search" QValue.str search ++
  optField "page" QValue.int page

/-- `PocketSmithAPI.list_user_transactions` (`api.py` lines 116–163):
`GET /users/{id}/transactions`. -/
def list_user_transactions (user_id : Int) (start_date end_date updated_since : Option String)
    (uncategorised : Option Bool) (type : Option String) (needs_review : Option Bool)
    (search : Option String) (page : Option Int) : Request :=
  { method := "GET"
    path := "/users/" ++ toString user_id ++ "/transactions"
    params := list_transactions_params start_date end_date updated_since
      uncategorised type needs_review search page
    body := [] }

/-- `PocketSmithAPI.list_account_transactions` (`api.py` lines 165–212):
`GET /accounts/{id}/transactions`. -/
def list_account_transactions (account_id : Int) (start_date end_date updated_since : Option String)
    (uncategorised : Option Bool) (type : Option String) (needs_review : Option Bool)
    (search : Option String) (page : Option Int) : Request :=
  { method := "GET"
    path := "/accounts/" ++ toString account_id ++ "/transactions"
    params := list_transactions_params start_date end_date updated_since
      uncategorised type needs_review search page
    body := [] }

/-- `PocketSmithAPI.list_category_transactions` (`api.py` lines 214–261):
`GET /categories/{ids}/transactions`, the ids being a pre-joined
comma-separated string path segment. -/
def list_category_transactions (category_ids : String) (start_date end_date updated_since : Option String)
    (uncategorised : Option Bool) (type : Option String) (needs_review : Option Bool)
    (search : Option String) (page : Option Int) : Request :=
  { method := "GET"
    path := "/categories/" ++ category_ids ++ "/transactions"
    params := list_transactions_params start_date end_date updated_since
      uncategorised type needs_review search page
    body := [] }

/-- `PocketSmithAPI.list_transaction_account_transactions`
(`api.py` lines 263–312): `GET /transaction_accounts/{id}/transactions`. -/
def list_transaction_account_transactions (transaction_account_id : Int)
    (start_date end_date updated_since : Option String)
    (uncategorised : Option Bool) (type : Option String) (needs_review : Option Bool)
    (search : Option String) (page : Option Int) : Request :=
  { method := "GET"
    path := "/transaction_accounts/" ++ toString transaction_account_id ++ "/transactions"
    params := list_transactions_params start_date end_date updated_since
      uncategorised type needs_review search page
    body := [] }

/-- Body built by `PocketSmithAPI.update_category`
(`api.py` lines 413–429): every field, `parent_id` included, is added
only when it is not `None`. -/
def update_category_body (title colour : Option String) (parent_id : Option Int)
    (is_transfer is_bill roll_up : Option Bool)
    (refund_behaviour : Option String) : JObject :=
  optField "title" JValue.str title ++
  optField "colour" JValue.str colour ++
  optField "parent_id" JValue.int parent_id ++
  optField "is_transfer" JValue.bool is_transfer ++
  optField "is_bill" JValue.bool is_bill ++
  optField "roll_up" JValue.bool roll_up ++
  optField "refund_behaviour" JValue.str refund_behaviour

/-- `PocketSmithAPI.update_category` (`api.py` lines 386–429):
`PUT /categories/{id}`. -/
def update_category (category_id : Int) (title colour : Option String)
    (parent_id : Option Int) (is_transfer is_bill roll_up : Option Bool)
    (refund_behaviour : Option String) : Request :=
  { method := "PUT"
    path := "/categories/" ++ toString category_id
    params := []
    body := update_category_body title colour parent_id is_transfer is_bill
      roll_up refund_behaviour }

/-- Body built by `PocketSmithAPI.create_category`
(`api.py` lines 480–494): `title` is required and always present, the
rest is added only when not `None` — `parent_id` included. -/
def create_category_body (title : String) (colour : Option String)
    (parent_id : Option Int) (is_transfer is_bill roll_up : Option Bool)
    (refund_behaviour : Option String) : JObject :=
  ("title", JValue.str title) ::
  (optField "colour" JValue.str colour ++
   optField "parent_id" JValue.int parent_id ++
   optField "is_transfer" JValue.bool is_transfer ++
   optField "is_bill" JValue.bool is_bill ++
   optField "roll_up" JValue.bool roll_up ++
   optField "refund_behaviour" JValue.str refund_behaviour)

/-- `PocketSmithAPI.create_category` (`api.py` lines 453–494):
`POST /users/{id}/categories`. -/
def create_category (user_id : Int) (title : String) (colour : Option String)
    (parent_id : Option Int) (is_transfer is_bill roll_up : Option Bool)
    (refund_behaviour : Option String) : Request :=
  { method := "POST"
    path := "/users/" ++ toString user_id ++ "/categories"
    params := []
    body := create_category_body title colour parent_id is_transfer is_bill
      roll_up refund_behaviour }

/-! ### Write guard (modelled from the spec)

The guard `requires_write_permission` lives in `pocketsmith/cli.py`,
which is not in the tree; only its tests are.  The definitions below are
modelled from the specification (§4.2). -/

/-- ASCII lowercasing of a string, character by character (the
case-insensitive comparisons in this code only ever see ASCII switch
values such as `true`, `TRUE`, `False`). -/
def lower_ascii (s : String) : String :=
  ⟨s.data.map Char.toLower⟩

/-- Modelled from the spec: the write switch (`POCKETSMITH_ALLOW_WRITES`,
read from the process environment, `none` when unset) is considered on
only for a case-insensitive match of the literal token `true`; any other
value, including absent, is off. -/
def writes_enabled (env : Option String) : Bool :=
  match env with
  | none => false
  | some v => lower_ascii v == "true"

/-- Modelled from the spec: the remediation message carried by the
`WritesDisabled` error names the switch and the value needed to enable
it. -/
def writesDisabledMessage : String :=
  "Write operations are disabled. Set POCKETSMITH_ALLOW_WRITES=true to enable them."

/-- Whether the second character list is a prefix of the first. -/
def starts_with : List Char → List Char → Bool
  | _, [] => true
  | [], _ :: _ => false
  | c :: cs, p :: ps => c == p && starts_with cs ps

/-- Whether the second character list occurs inside the first. -/
def contains_sub : List Char → List Char → Bool
  | [], pat => pat.isEmpty
  | c :: cs, pat => starts_with (c :: cs) pat || contains_sub cs pat

/-- Substring test on strings, used to state that error messages carry
their required remediation text. -/
def contains_substring (s pat : String) : Bool :=
  contains_sub s.data pat.data

/-- Outcome of a guarded operation: either the wrapped function ran,
returning its value and having issued its network calls, or the guard
refused with a message and nothing ran. -/
inductive GuardOutcome (α : Type) where
  | result (a : α) (calls : List Request)
  | disabled (msg : String)
deriving DecidableEq, Repr

/-- An unguarded operation that returns `a` after issuing `calls`. -/
def run_unguarded (a : α) (calls : List Request) : GuardOutcome α :=
  .result a calls

/-- Modelled from the spec: `requires_write_permission` consults the
switch at call time; when off it raises `WritesDisabled` without
attempting the operation (no network call), when on the operation
proceeds exactly as an unguarded call would. -/
def run_guarded (env : Option String) (a : α) (calls : List Request) : GuardOutcome α :=
  if writes_enabled env then run_unguarded a calls
  else .disabled writesDisabledMessage

/-! ### Response and error mapping (modelled from the spec)

The transport lives in `pocketsmith/client.py`, which is not in the
tree; only its tests are.  Modelled from the specification (§4.3). -/

/-- The typed error for a non-2xx HTTP response: numeric status code
plus a message (`APIError` in `pocketsmith/client.py`). -/
structure APIError where
  status_code : Nat
  message : String
deriving DecidableEq, Repr

/-- A completed HTTP response as the handler sees it: status code, raw
body text, and the result of attempting to parse the body as a JSON
object (`none` when the body is not a JSON object). -/
structure HttpResponse where
  status : Nat
  body : String
  json : Option JObject
deriving DecidableEq, Repr

/-- The `error` field of a parsed JSON body, when the body parsed and
carries a string under that key. -/
def json_error_field (j : Option JObject) : Option String :=
  match j with
  | none => none
  | some fields =>
    match fields.lookup "error" with
    | some (JValue.str m) => some m
    | _ => none

/-- Modelled from the spec: error-message resolution order for a
non-2xx response — (a) the JSON body's `error` field when present,
(b) otherwise the raw body text, (c) for an empty body a generic
description of the status. -/
def error_message (r : HttpResponse) : String :=
  match json_error_field r.json with
  | some m => m
  | none => if r.body = "" then "HTTP " ++ toString r.status ++ " error" else r.body

/-- Modelled from the spec: converting a completed response — 204 yields
an explicit no-value result, other 2xx return the parsed body as-is, and
any non-2xx status raises `APIError` with the resolved message; the
error is always surfaced, never retried or suppressed. -/
def handle_response (r : HttpResponse) : Except APIError (Option JObject) :=
  if r.status == 204 then .ok none
  else if 200 ≤ r.status ∧ r.status < 300 then .ok r.json
  else .error ⟨r.status, error_message r⟩

/-! ### Credential lookup and client construction (modelled from the spec)

`pocketsmith/auth.py` and the constructor of `PocketSmithClient` are not
in the tree; only their tests are.  Modelled from the specification
(§6, Required credential). -/

/-- A configuration error raised before any network activity. -/
structure ConfigError where
  message : String
deriving DecidableEq, Repr

/-- Modelled from the spec: the error message for a missing or empty
developer key names the configuration variable. -/
def missingKeyMessage : String :=
  "POCKETSMITH_DEVELOPER_KEY environment variable is not set"

/-- Modelled from the spec: `get_developer_key` reads
`POCKETSMITH_DEVELOPER_KEY` from the process environment (`none` when
unset); absence or emptiness is a configuration error. -/
def get_developer_key (env : Option String) : Except ConfigError String :=
  match env with
  | none => .error ⟨missingKeyMessage⟩
  | some k => if k = "" then .error ⟨missingKeyMessage⟩ else .ok k

/-- Modelled from the spec: every request carries the developer key in
the `X-Developer-Key` header and a JSON content-type header. -/
def default_headers (key : String) : List (String × String) :=
  [("X-Developer-Key", key), ("Content-Type", "application/json")]

/-- Modelled from the spec: client construction resolves the developer
key into the session headers and performs no network call — the first
component lists the requests issued during construction, always `[]`. -/
def client_init (env : Option String) :
    List Request × Except ConfigError (List (String × String)) :=
  ([], (get_developer_key env).map default_headers)

/-! ### CLI boundary (modelled from the spec)

`pocketsmith/cli.py` is not in the tree; only its tests are.  Modelled
from the specification (§6 command surface, §7 propagation policy). -/

/-- The errors the CLI boundary catches. -/
inductive CliError where
  | api (e : APIError)
  | config (e : ConfigError)
  | writesDisabled (msg : String)
deriving DecidableEq, Repr

/-- Modelled from the spec: the JSON error object printed to standard
error. -/
def error_json : CliError → JObject
  | .api e => [("error", JValue.str e.message), ("status_code", JValue.int e.status_code)]
  | .config e => [("error", JValue.str e.message)]
  | .writesDisabled m => [("error", JValue.str m)]

/-- What a finished CLI invocation leaves behind: exit code, the JSON
printed to standard output, and the JSON printed to standard error. -/
structure CliResult where
  exit_code : Nat
  stdout : Option JObject
  stderr : Option JObject
deriving DecidableEq, Repr

/-- Modelled from the spec: the CLI converts a command outcome into an
exit code and printed payloads — 0 with the result on standard output on
success, 1 with a JSON error object on standard error on any failure;
except `auth status`, which on failure prints a success-shaped payload
with `authenticated: false` to standard output while still exiting 1. -/
def render_cli (is_auth_status : Bool) (outcome : Except CliError JObject) : CliResult :=
  match outcome with
  | .ok j => ⟨0, some j, none⟩
  | .error e =>
    if is_auth_status then ⟨1, some [("authenticated", JValue.bool false)], none⟩
    else ⟨1, none, some (error_json e)⟩

/-- Modelled from the spec: the CLI command `transactions list-by-user`
maps onto `list_user_transactions`; its `--uncategorised` and
`--needs-review` switches default to off and their boolean values are
always forwarded to the operation (behaviour fixed by the repository's
CLI tests, which require `uncategorised=0&needs_review=0` on a bare
invocation). -/
def cli_list_by_user (user_id : Int) (start_date end_date updated_since : Option String)
    (uncategorised : Bool) (type : Option String) (needs_review : Bool)
    (search : Option String) (page : Option Int) : Request :=
  list_user_transactions user_id start_date end_date updated_since
    (some uncategorised) type (some needs_review) search page

/-- Modelled from the spec: the CLI command `transactions
list-by-account`, forwarding its flags like `cli_list_by_user`. -/
def cli_list_by_account (account_id : Int) (start_date end_date updated_since : Option String)
    (uncategorised : Bool) (type : Option String) (needs_review : Bool)
    (search : Option String) (page : Option Int) : Request :=
  list_account_transactions account_id start_date end_date updated_since
    (some uncategorised) type (some needs_review) search page

/-- Modelled from the spec: the CLI command `transactions
list-by-category`, forwarding its flags like `cli_list_by_user`. -/
def cli_list_by_category (category_ids : String) (start_date end_date updated_since : Option String)
    (uncategorised : Bool) (type : Option String) (needs_review : Bool)
    (search : Option String) (page : Option Int) : Request :=
  list_category_transactions category_ids start_date end_date updated_since
    (some uncategorised) type (some needs_review) search page

/-- Modelled from the spec: the CLI command `transactions
list-by-transaction-account`, forwarding its flags like
`cli_list_by_user`. -/
def cli_list_by_transaction_account (transaction_account_id : Int)
    (start_date end_date updated_since : Option String)
    (uncategorised : Bool) (type : Option String) (needs_review : Bool)
    (search : Option String) (page : Option Int) : Request :=
  list_transaction_account_transactions transaction_account_id start_date end_date
    updated_since (some uncategorised) type (some needs_review) search page

/-! ### Helper lemmas about `optField` -/

/-- A key is in the key set of an optional field exactly when it is
that field's key and the argument was supplied. -/
@[simp]
theorem mem_keys_optField {β : Type} (k k' : String) (f : α → β) (o : Option α) :
    k ∈ (optField k' f o).map Prod.fst ↔ (k = k' ∧ o.isSome = true) := by
  cases o <;> simp [optField]

/-- Looking up a different key skips an optional field. -/
theorem lookup_optField_ne {β : Type} {k k' : String} (h : (k == k') = false)
    (f : α → β) (o : Option α) (l : List (String × β)) :
    (optField k' f o ++ l).lookup k = l.lookup k := by
  cases o <;> simp [optField, List.lookup, h]

/-- Looking up a key that an optional field does not carry, with nothing
after it. -/
theorem lookup_optField_skip {β : Type} {k k' : String} (h : (k == k') = false)
    (f : α → β) (o : Option α) :
    (optField k' f o).lookup k = none := by
  cases o <;> simp [optField, List.lookup, h]

/-- Looking up an optional field's own key at the head of the dict. -/
theorem lookup_optField_self {β : Type} (k : String) (f : α → β) (o : Option α)
    (l : List (String × β)) :
    (optField k f o ++ l).lookup k = (o.map f).or (l.lookup k) := by
  cases o <;> simp [optField, List.lookup]

/-- Looking up a different key skips a mandatory head entry. -/
theorem lookup_cons_ne {β : Type} {k k' : String} (h : (k == k') = false)
    (v : β) (l : List (String × β)) :
    ((k', v) :: l).lookup k = l.lookup k := by
  simp [List.lookup, h]

/-- In any `update_category` body, the `parent_id` field is present with
value `JValue.int v` exactly when the caller supplied `parent_id = some v`;
a caller-side `None` leaves the key out entirely. -/
theorem update_category_lookup_parent (title colour : Option String)
    (parent_id : Option Int) (it ib ru : Option Bool) (rb : Option String) :
    (update_category_body title colour parent_id it ib ru rb).lookup "parent_id"
      = parent_id.map JValue.int := by
  unfold update_category_body
  simp only [List.append_assoc]
  rw [lookup_optField_ne (by decide), lookup_optField_ne (by decide),
    lookup_optField_self]
  cases parent_id with
  | some v => rfl
  | none =>
    rw [Option.map_none', Option.none_or,
      lookup_optField_ne (by decide), lookup_optField_ne (by decide),
      lookup_optField_ne (by decide), lookup_optField_skip (by decide)]

/-- Same field law for `create_category` bodies. -/
theorem create_category_lookup_parent (title : String) (colour : Option String)
    (parent_id : Option Int) (it ib ru : Option Bool) (rb : Option String) :
    (create_category_body title colour parent_id it ib ru rb).lookup "parent_id"
      = parent_id.map JValue.int := by
  unfold create_category_body
  simp only [List.append_assoc]
  rw [lookup_cons_ne (by decide), lookup_optField_ne (by decide),
    lookup_optField_self]
  cases parent_id with
  | some v => rfl
  | none =>
    rw [Option.map_none', Option.none_or,
      lookup_optField_ne (by decide), lookup_optField_ne (by decide),
      lookup_optField_ne (by decide), lookup_optField_skip (by decide)]

/-- The `uncategorised` query parameter of the shared list-params builder. -/
theorem lookup_params_uncategorised (sd ed us ty : Option String)
    (nr : Option Bool) (se : Option String) (pg : Option Int) (u : Option Bool) :
    (list_transactions_params sd ed us u ty nr se pg).lookup "uncategorised"
      = u.map (fun b => QValue.int (bool_flag b)) := by
  unfold list_transactions_params
  simp only [List.append_assoc]
  rw [lookup_optField_ne (by decide), lookup_optField_ne (by decide),
    lookup_optField_ne (by decide), lookup_optField_self]
  cases u with
  | some b => rfl
  | none =>
    rw [Option.map_none', Option.none_or,
      lookup_optField_ne (by decide), lookup_optField_ne (by decide),
      lookup_optField_ne (by decide), lookup_optField_skip (by decide)]

/-- The `needs_review` query parameter of the shared list-params builder. -/
theorem lookup_params_needs_review (sd ed us ty : Option String)
    (u : Option Bool) (se : Option String) (pg : Option Int) (nr : Option Bool) :
    (list_transactions_params sd ed us u ty nr se pg).lookup "needs_review"
      = nr.map (fun b => QValue.int (bool_flag b)) := by
  unfold list_transactions_params
  simp only [List.append_assoc]
  rw [lookup_optField_ne (by decide), lookup_optField_ne (by decide),
    lookup_optField_ne (by decide), lookup_optField_ne (by decide),
    lookup_optField_ne (by decide), lookup_optField_self]
  cases nr with
  | some b => rfl
  | none =>
    rw [Option.map_none', Option.none_or,
      lookup_optField_ne (by decide), lookup_optField_skip (by decide)]

/-- A supplied boolean query flag renders as the characters `1`/`0`. -/
theorem render_bool_flag (b : Bool) :
    QValue.render (QValue.int (bool_flag b)) = (if b then "1" else "0") := by
  cases b <;> rfl

/-! ### Claim theorems -/

/-- C1: the claim says an explicit `parent_id=None` serializes
`"parent_id": null`, distinguishable from omitting the argument.  The
code refutes this: `update_category(123, parent_id=None)` builds the
empty body, `create_category` likewise drops the key, and in every
reachable body the `parent_id` field is `JValue.int v` for a supplied
`v` — a JSON `null` is never sent and an explicit `None` is
indistinguishable from omission. -/
theorem update_category_explicit_null_parent_is_dropped :
    (update_category_body none none none none none none none = ([] : JObject))
    ∧ ((create_category_body "Groceries" none none none none none none).lookup "parent_id"
        = none)
    ∧ (∀ (title colour : Option String) (parent_id : Option Int)
        (it ib ru : Option Bool) (rb : Option String),
        (update_category_body title colour parent_id it ib ru rb).lookup "parent_id"
          = parent_id.map JValue.int)
    ∧ (∀ (title : String) (colour : Option String) (parent_id : Option Int)
        (it ib ru : Option Bool) (rb : Option String),
        (create_category_body title colour parent_id it ib ru rb).lookup "parent_id"
          = parent_id.map JValue.int) :=
  ⟨rfl, by decide, update_category_lookup_parent, create_category_lookup_parent⟩

/-- C2: supplying a subset of the optional keyword arguments produces a
payload whose key set is exactly the supplied subset — shown for the
`update_transaction` body and the shared transaction-list query
parameters, and concretely `update_transaction(1, payee="X")` sends the
body `{"payee": "X"}` and nothing else. -/
theorem optional_payload_keys_exactly_supplied :
    ((update_transaction 1 none none (some "X") none none none none none none none).body
        = [("payee", JValue.str "X")])
    ∧ (∀ (memo cheque_number payee : Option String) (amount : Option Int)
        (date : Option String) (is_transfer : Option Bool) (category_id : Option Int)
        (note : Option String) (needs_review : Option Bool)
        (labels : Option (List String)) (k : String),
        k ∈ (update_transaction_body memo cheque_number payee amount date is_transfer
            category_id note needs_review labels).map Prod.fst ↔
          ((k = "memo" ∧ memo.isSome = true) ∨
           (k = "cheque_number" ∧ cheque_number.isSome = true) ∨
           (k = "payee" ∧ payee.isSome = true) ∨
           (k = "amount" ∧ amount.isSome = true) ∨
           (k = "date" ∧ date.isSome = true) ∨
           (k = "is_transfer" ∧ is_transfer.isSome = true) ∨
           (k = "category_id" ∧ category_id.isSome = true) ∨
           (k = "note" ∧ note.isSome = true) ∨
           (k = "needs_review" ∧ needs_review.isSome = true) ∨
           (k = "labels" ∧ labels.isSome = true)))
    ∧ (∀ (sd ed us ty se : Option String) (pg : Option Int) (u nr : Option Bool)
        (k : String),
        k ∈ (list_transactions_params sd ed us u ty nr se pg).map Prod.fst ↔
          ((k = "start_date" ∧ sd.isSome = true) ∨
           (k = "end_date" ∧ ed.isSome = true) ∨
           (k = "updated_since" ∧ us.isSome = true) ∨
           (k = "uncategorised" ∧ u.isSome = true) ∨
           (k = "type" ∧ ty.isSome = true) ∨
           (k = "needs_review" ∧ nr.isSome = true) ∨
           (k = "search" ∧ se.isSome = true) ∨
           (k = "page" ∧ pg.isSome = true))) := by
  refine ⟨rfl, ?_, ?_⟩
  · intro memo cheque_number payee amount date is_transfer category_id note
      needs_review labels k
    simp only [update_transaction_body, List.map_append, List.mem_append,
      mem_keys_optField, or_assoc]
  · intro sd ed us ty se pg u nr k
    simp only [list_transactions_params, List.map_append, List.mem_append,
      mem_keys_optField, or_assoc]

/-- C3: a supplied boolean query filter serializes into the query
string as the literal characters `1`/`0` (never `true`/`false`), for
the `uncategorised` and `needs_review` filters of all four transaction
list operations. -/
theorem boolean_query_flags_render_as_one_zero :
    ∀ (uid aid taid : Int) (cids : String) (sd ed us ty se : Option String)
      (pg : Option Int) (u nr : Option Bool) (b : Bool),
      (QValue.render (QValue.int (bool_flag b)) = (if b then "1" else "0"))
      ∧ (QValue.render (QValue.int (bool_flag b)) ≠ "true")
      ∧ (QValue.render (QValue.int (bool_flag b)) ≠ "false")
      ∧ (((list_user_transactions uid sd ed us (some b) ty nr se pg).params.lookup
            "uncategorised").map QValue.render = some (if b then "1" else "0"))
      ∧ (((list_user_transactions uid sd ed us u ty (some b) se pg).params.lookup
            "needs_review").map QValue.render = some (if b then "1" else "0"))
      ∧ (((list_account_transactions aid sd ed us (some b) ty nr se pg).params.lookup
            "uncategorised").map QValue.render = some (if b then "1" else "0"))
      ∧ (((list_account_transactions aid sd ed us u ty (some b) se pg).params.lookup
            "needs_review").map QValue.render = some (if b then "1" else "0"))
      ∧ (((list_category_transactions cids sd ed us (some b) ty nr se pg).params.lookup
            "uncategorised").map QValue.render = some (if b then "1" else "0"))
      ∧ (((list_category_transactions cids sd ed us u ty (some b) se pg).params.lookup
            "needs_review").map QValue.render = some (if b then "1" else "0"))
      ∧ (((list_transaction_account_transactions taid sd ed us (some b) ty nr se pg).params.lookup
            "uncategorised").map QValue.render = some (if b then "1" else "0"))
      ∧ (((list_transaction_account_transactions taid sd ed us u ty (some b) se pg).params.lookup
            "needs_review").map QValue.render = some (if b then "1" else "0")) := by
  intro uid aid taid cids sd ed us ty se pg u nr b
  refine ⟨render_bool_flag b, ?_, ?_, ?_, ?_, ?_, ?_, ?_, ?_, ?_, ?_⟩
  · cases b <;> decide
  · cases b <;> decide
  all_goals
    simp only [list_user_transactions, list_account_transactions,
      list_category_transactions, list_transaction_account_transactions,
      lookup_params_uncategorised, lookup_params_needs_review,
      Option.map_some', render_bool_flag]

/-- C10: every CLI `transactions list-by-*` command forwards the values
of its boolean filter switches rather than omitting them, so a bare
invocation (switches off) still sends `uncategorised=0` and
`needs_review=0`, and the two filters are never absent from a list
request issued at the CLI boundary. -/
theorem cli_list_commands_always_send_boolean_filters :
    ∀ (uid aid taid : Int) (cids : String) (sd ed us ty se : Option String)
      (pg : Option Int) (b1 b2 : Bool),
      ((cli_list_by_user uid none none none false none false none none).params.lookup
          "uncategorised" = some (QValue.int 0))
      ∧ ((cli_list_by_user uid none none none false none false none none).params.lookup
          "needs_review" = some (QValue.int 0))
      ∧ ((cli_list_by_user uid sd ed us b1 ty b2 se pg).params.lookup
          "uncategorised" = some (QValue.int (bool_flag b1)))
      ∧ ((cli_list_by_user uid sd ed us b1 ty b2 se pg).params.lookup
          "needs_review" = some (QValue.int (bool_flag b2)))
      ∧ ((cli_list_by_account aid sd ed us b1 ty b2 se pg).params.lookup
          "uncategorised" = some (QValue.int (bool_flag b1)))
      ∧ ((cli_list_by_account aid sd ed us b1 ty b2 se pg).params.lookup
          "needs_review" = some (QValue.int (bool_flag b2)))
      ∧ ((cli_list_by_category cids sd ed us b1 ty b2 se pg).params.lookup
          "uncategorised" = some (QValue.int (bool_flag b1)))
      ∧ ((cli_list_by_category cids sd ed us b1 ty b2 se pg).params.lookup
          "needs_review" = some (QValue.int (bool_flag b2)))
      ∧ ((cli_list_by_transaction_account taid sd ed us b1 ty b2 se pg).params.lookup
          "uncategorised" = some (QValue.int (bool_flag b1)))
      ∧ ((cli_list_by_transaction_account taid sd ed us b1 ty b2 se pg).params.lookup
          "needs_review" = some (QValue.int (bool_flag b2))) := by
  intro uid aid taid cids sd ed us ty se pg b1 b2
  refine ⟨?_, ?_, ?_, ?_, ?_, ?_, ?_, ?_, ?_, ?_⟩
  all_goals
    simp only [cli_list_by_user, cli_list_by_account, cli_list_by_category,
      cli_list_by_transaction_account, list_user_transactions,
      list_account_transactions, list_category_transactions,
      list_transaction_account_transactions,
      lookup_params_uncategorised, lookup_params_needs_review,
      Option.map_some', bool_flag, if_neg, Bool.false_eq_true, if_false]

/-- C4: with the write switch unset or set to anything but a
case-insensitive `true`, a guarded mutating operation is not attempted —
the guard returns the refusal, carrying no performed call — and the
error message names `POCKETSMITH_ALLOW_WRITES=true`. -/
theorem write_guard_blocks_when_switch_off {α : Type} (env : Option String)
    (h : ∀ v, env = some v → lower_ascii v ≠ "true") (a : α) (calls : List Request) :
    run_guarded env a calls = GuardOutcome.disabled writesDisabledMessage
    ∧ contains_substring writesDisabledMessage "POCKETSMITH_ALLOW_WRITES=true" = true := by
  constructor
  · have hoff : writes_enabled env = false := by
      cases env with
      | none => rfl
      | some v =>
        have hv := h v rfl
        simpa [writes_enabled] using hv
    simp [run_guarded, hoff]
  · decide

/-- Witness for C4 at the concrete switch value `"false"`. -/
theorem write_guard_blocks_when_switch_off_witness :
    (∀ v, (some "false" : Option String) = some v → lower_ascii v ≠ "true")
    ∧ (run_guarded (some "false") "success" ([] : List Request)
          = GuardOutcome.disabled writesDisabledMessage
        ∧ contains_substring writesDisabledMessage "POCKETSMITH_ALLOW_WRITES=true" = true) :=
  ⟨by intro v hv; cases hv; decide,
   write_guard_blocks_when_switch_off (some "false")
     (by intro v hv; cases hv; decide) "success" []⟩

/-- C5: with the write switch matching `true` case-insensitively, the
guarded call is the identity on the wrapped operation: it returns the
same value and performs the same calls as the unguarded operation. -/
theorem write_guard_identity_when_switch_on {α : Type} (env : Option String)
    (v : String) (hv : env = some v) (h : lower_ascii v = "true")
    (a : α) (calls : List Request) :
    run_guarded env a calls = run_unguarded a calls := by
  subst hv
  have hon : writes_enabled (some v) = true := by simp [writes_enabled, h]
  simp [run_guarded, hon]

/-- Witness for C5 at the concrete switch value `"TRUE"`. -/
theorem write_guard_identity_when_switch_on_witness :
    ((some "TRUE" : Option String) = some "TRUE")
    ∧ (lower_ascii "TRUE" = "true")
    ∧ (run_guarded (some "TRUE") "success" ([] : List Request)
        = run_unguarded "success" []) :=
  ⟨rfl, by decide,
   write_guard_identity_when_switch_on (some "TRUE") "TRUE" rfl (by decide) "success" []⟩

/-- C6: a completed 204 (No Content) response yields the explicit
no-value result, which is distinct from an empty JSON object. -/
theorem response_204_yields_no_value (r : HttpResponse) (h : r.status = 204) :
    handle_response r = .ok none
    ∧ (Except.ok (none : Option JObject) : Except APIError (Option JObject))
        ≠ Except.ok (some ([] : JObject)) := by
  constructor
  · simp [handle_response, h]
  · simp

/-- Witness for C6 at a concrete 204 delete response. -/
theorem response_204_yields_no_value_witness :
    (HttpResponse.mk 204 "" none).status = 204
    ∧ (handle_response ⟨204, "", none⟩ = .ok none
        ∧ (Except.ok (none : Option JObject) : Except APIError (Option JObject))
            ≠ Except.ok (some ([] : JObject))) :=
  ⟨rfl, response_204_yields_no_value ⟨204, "", none⟩ rfl⟩

/-- C7: a completed non-2xx response maps to an `APIError` carrying the
numeric status, with the message resolved in order — the JSON body's
`error` field, else the raw body text, else a generic description of
the status for an empty body — and the error is the handler's result,
never retried or suppressed. -/
theorem non_2xx_yields_api_error (r : HttpResponse)
    (h : r.status < 200 ∨ 300 ≤ r.status) :
    handle_response r = .error ⟨r.status, error_message r⟩
    ∧ (∀ m, json_error_field r.json = some m → error_message r = m)
    ∧ (json_error_field r.json = none → r.body ≠ "" → error_message r = r.body)
    ∧ (json_error_field r.json = none → r.body = "" →
        error_message r = "HTTP " ++ toString r.status ++ " error") := by
  have h204 : (r.status == 204) = false := by
    rcases h with h | h <;> simp <;> omega
  have h2xx : ¬(200 ≤ r.status ∧ r.status < 300) := by
    rcases h with h | h <;> omega
  refine ⟨?_, ?_, ?_, ?_⟩
  · simp [handle_response, h204, h2xx]
  · intro m hm
    simp [error_message, hm]
  · intro hj hb
    simp [error_message, hj, hb]
  · intro hj hb
    simp [error_message, hj, hb]

/-- Witness for C7 at the concrete 404 response whose JSON body carries
an `error` field, as in the repository's tests. -/
theorem non_2xx_yields_api_error_witness :
    ((404 : Nat) < 200 ∨ 300 ≤ 404)
    ∧ handle_response ⟨404, "error body", some [("error", JValue.str "Transaction not found")]⟩
        = .error ⟨404, "Transaction not found"⟩ := by
  refine ⟨by decide, ?_⟩
  have h := non_2xx_yields_api_error
    ⟨404, "error body", some [("error", JValue.str "Transaction not found")]⟩ (by decide)
  have hm := h.2.1 "Transaction not found" rfl
  rw [h.1, hm]

/-- C8: client construction with the developer key unset or empty fails
with a configuration error naming the variable, issuing no request;
with a non-empty key it succeeds and every request's headers carry the
key under `X-Developer-Key` (plus the JSON content type). -/
theorem developer_key_required_and_sent (env : Option String) :
    ((env = none ∨ env = some "") →
        client_init env = ([], .error ⟨missingKeyMessage⟩)
        ∧ contains_substring missingKeyMessage "POCKETSMITH_DEVELOPER_KEY" = true)
    ∧ (∀ k, env = some k → k ≠ "" →
        client_init env = ([], .ok (default_headers k))
        ∧ (default_headers k).lookup "X-Developer-Key" = some k
        ∧ (default_headers k).lookup "Content-Type" = some "application/json") := by
  constructor
  · rintro (rfl | rfl) <;> exact ⟨rfl, by decide⟩
  · rintro k rfl hk
    refine ⟨?_, ?_, ?_⟩
    · simp [client_init, get_developer_key, hk, Except.map]
    · simp [default_headers, List.lookup]
    · simp [default_headers, List.lookup]

/-- Witness for C8 at a missing key and at the key used throughout the
repository's tests. -/
theorem developer_key_required_and_sent_witness :
    (client_init none = ([], .error ⟨missingKeyMessage⟩)
      ∧ contains_substring missingKeyMessage "POCKETSMITH_DEVELOPER_KEY" = true)
    ∧ (client_init (some "test_developer_key")
          = ([], .ok (default_headers "test_developer_key"))
      ∧ (default_headers "test_developer_key").lookup "X-Developer-Key"
          = some "test_developer_key"
      ∧ (default_headers "test_developer_key").lookup "Content-Type"
          = some "application/json") :=
  ⟨(developer_key_required_and_sent none).1 (Or.inl rfl),
   (developer_key_required_and_sent (some "test_developer_key")).2
     "test_developer_key" rfl (by decide)⟩

/-- C9: the CLI exits 0 with the result on standard output on success
and 1 with a JSON error object on standard error on any failure, except
that a failing `auth status` prints the success-shaped payload
`authenticated: false` to standard output while still exiting 1. -/
theorem cli_exit_codes_and_streams (is_auth_status : Bool)
    (outcome : Except CliError JObject) :
    (∀ j, outcome = .ok j →
        render_cli is_auth_status outcome = ⟨0, some j, none⟩)
    ∧ (∀ e, outcome = .error e → is_auth_status = false →
        render_cli is_auth_status outcome = ⟨1, none, some (error_json e)⟩)
    ∧ (∀ e, outcome = .error e → is_auth_status = true →
        render_cli is_auth_status outcome
          = ⟨1, some [("authenticated", JValue.bool false)], none⟩) := by
  refine ⟨?_, ?_, ?_⟩
  · rintro j rfl; rfl
  · rintro e rfl rfl; rfl
  · rintro e rfl rfl; rfl

/-- Witness for C9 at a concrete success, a concrete non-auth failure,
and a concrete `auth status` failure. -/
theorem cli_exit_codes_and_streams_witness :
    (render_cli false (.ok [("id", JValue.int 123)])
        = ⟨0, some [("id", JValue.int 123)], none⟩)
    ∧ (render_cli false (.error (CliError.api ⟨404, "Transaction not found"⟩))
        = ⟨1, none, some (error_json (CliError.api ⟨404, "Transaction not found"⟩))⟩)
    ∧ (render_cli true (.error (CliError.config ⟨missingKeyMessage⟩))
        = ⟨1, some [("authenticated", JValue.bool false)], none⟩) :=
  ⟨(cli_exit_codes_and_streams false (.ok [("id", JValue.int 123)])).1 _ rfl,
   (cli_exit_codes_and_streams false
     (.error (CliError.api ⟨404, "Transaction not found"⟩))).2.1 _ rfl rfl,
   (cli_exit_codes_and_streams true
     (.error (CliError.config ⟨missingKeyMessage⟩))).2.2 _ rfl rfl⟩

end PocketSmith
